import Mathlib

/-!
Shallow embedding of the `googleauth` Go package: a token-acquisition and
caching layer that loads an OAuth2 token record from a per-user cache file,
falls back to an interactive authorization-code flow on any load failure,
persists the freshly obtained record, and wraps the result in an
authenticated HTTP client.

The repository has two near-duplicate revisions of the same file:
`client.go` (consent URL always printed to stdout) and an unnamed revision
(`part_000`) that additionally attempts to open the consent URL in a
browser and splits the entry point into `CreateClient` (byte blob) and
`CreateClientFromFile` (path). The shared helpers (`tokenCacheFile`,
`tokenFromFile`, `saveToken`, `getClient` structure) are identical across
revisions and are embedded once; the browser-flow revision's functions
live in the `BrowserRev` namespace.

Effects (filesystem, stdout, stdin, browser, token endpoint) are modelled
by explicit state passing over a `World` (filesystem contents, created
directories, a chronological event trace) plus a read-only `Env` that
fixes the outcome of each external collaborator (home-directory lookup,
directory creation, browser launch, stdin read, token-endpoint exchange,
file-creation failures). External libraries (`encoding/json`,
`golang.org/x/oauth2`, `google.ConfigFromJSON`) are modelled by their
observable behaviour on the data shapes this package feeds them.
-/

deriving instance DecidableEq for Except

namespace Googleauth

/-- The token record persisted by the package, mirroring the exported
fields of `golang.org/x/oauth2.Token` (`AccessToken`, `TokenType`,
`RefreshToken`, `Expiry`). The Go zero value has empty strings and zero
expiry. Expiry is modelled as an integer timestamp. -/
structure Token where
  accessToken : String
  tokenType : String
  refreshToken : String
  expiry : Int
  deriving Repr, DecidableEq

/-- The Go zero value `oauth2.Token{}`: what `json.Decode` leaves behind
when the decoded JSON object sets none of the token fields (for example
the object `{}`). -/
def zeroToken : Token :=
  { accessToken := "", tokenType := "", refreshToken := "", expiry := 0 }

/-- The external OAuth2 configuration (`oauth2.Config`) produced by
`google.ConfigFromJSON` from a secret blob plus the requested scope. The
package treats it as an opaque capability. -/
structure Config where
  clientID : String
  clientSecret : String
  authURL : String
  tokenURL : String
  scope : String
  deriving Repr, DecidableEq

/-- File contents, classified by what the external JSON codecs do with
them — the level of abstraction at which this package observes bytes:
`tokenJSON t` is a JSON object that `json.Decode` into an `oauth2.Token`
reads back as `t` (the image of `json.Encode`); `configJSON` is a valid
Google secret-configuration JSON (an `installed`/`web` object) carrying
the config fields that `ConfigFromJSON` extracts; `garbage s` is content
that is not valid JSON at all. -/
inductive Bytes where
  | tokenJSON (t : Token)
  | configJSON (clientID clientSecret authURL tokenURL : String)
  | garbage (s : String)
  deriving Repr, DecidableEq

/-- Error kinds, one per failure point of the flow, following the spec's
nomenclature. Go returns opaque `error` values; the kind records which
collaborator produced the error. -/
inductive GErr where
  | userResolution
  | cacheMiss
  | malformedRecord
  | persistError
  | inputError
  | exchangeError
  | configParse
  | fileReadError
  deriving Repr, DecidableEq

/-- Observable interactions with the operator and the network, recorded
chronologically: printing the input prompt, printing the consent URL to
stdout, attempting a browser launch (with its outcome), attempting a read
of the authorization code from stdin, and attempting the
authorization-code-for-token exchange. -/
inductive Event where
  | printedPrompt
  | printedURL (url : String)
  | browserLaunch (url : String) (ok : Bool)
  | readCode
  | exchanged (code : String)
  deriving Repr, DecidableEq

/-- Mutable world: the filesystem (path to contents, most recent write
first), the set of directories created so far, and the event trace. -/
structure World where
  fs : List (String × Bytes)
  dirs : List String
  events : List Event
  deriving Repr, DecidableEq

/-- Fixed outcomes of the external collaborators for one invocation. -/
structure Env where
  /-- Result of `user.Current()`: the home directory, or `none` when the
  current user cannot be determined. -/
  homeDir : Option String
  /-- Whether `os.MkdirAll` succeeds (the code discards its error). -/
  mkdirOk : Bool
  /-- Whether `browser.OpenURL` succeeds. -/
  browserOk : Bool
  /-- Result of `fmt.Scan`: the code typed by the operator, or `none` on
  a read failure (for example a closed stdin). -/
  stdin : Option String
  /-- The token endpoint's response to `config.Exchange` for a given
  authorization code: `none` is any non-success response or network
  failure. -/
  exchangeResp : String → Option Token
  /-- Paths at which `os.Create` (or the subsequent write) fails. -/
  createFail : List String

/-- Appends one event to the trace. -/
def appendEvent (w : World) (e : Event) : World :=
  { w with events := w.events ++ [e] }

/-- Models Go's `filepath.Join` on two elements: empty elements are
dropped, otherwise the parts are joined with a separator. (The `Clean`
normalization of redundant separators in already-denormalized inputs is
not modelled; inputs are assumed clean.) -/
def joinPath (dir file : String) : String :=
  if dir = "" then file
  else if file = "" then dir
  else dir ++ "/" ++ file

/-- True for the bytes Go's `url.QueryEscape` leaves unescaped:
alphanumerics and `-`, `_`, `.`, `~`. -/
def isUnreservedByte (b : UInt8) : Bool :=
  (65 ≤ b && b ≤ 90) || (97 ≤ b && b ≤ 122) || (48 ≤ b && b ≤ 57) ||
    b == 45 || b == 95 || b == 46 || b == 126

/-- Uppercase hexadecimal digit for `n < 16`. -/
def hexUpper (n : Nat) : Char :=
  if n < 10 then Char.ofNat (48 + n) else Char.ofNat (55 + n)

/-- Escapes one byte the way Go's `url.QueryEscape` does: unreserved
bytes kept, space becomes `+`, everything else percent-encoded with
uppercase hex. -/
def escByte (b : UInt8) : String :=
  if isUnreservedByte b then String.singleton (Char.ofNat b.toNat)
  else if b == 32 then "+"
  else "%" ++ String.singleton (hexUpper (b.toNat / 16)) ++
    String.singleton (hexUpper (b.toNat % 16))

/-- Go's `url.QueryEscape`: escapes each UTF-8 byte of the string. -/
def queryEscape (s : String) : String :=
  String.join ((s.data.flatMap String.utf8EncodeChar).map escByte)

/-- Models `os.MkdirAll(dir, 0700)` as used by `tokenCacheFile`: on
success the directory is recorded as existing; the call's error is
discarded by the caller either way. -/
def mkdirAll (env : Env) (w : World) (dir : String) : World :=
  if env.mkdirOk then
    { w with dirs := if w.dirs.contains dir then w.dirs else dir :: w.dirs }
  else w

/-- Embeds `tokenCacheFile` (identical in both revisions): resolve the
current user's home directory (failure is returned), build
`home/.credentials`, create it best-effort, and return the cache file
path `home/.credentials/<url-escaped tokenFile>`. -/
def tokenCacheFile (env : Env) (w : World) (tokenFile : String) :
    World × Except GErr String :=
  match env.homeDir with
  | none => (w, .error .userResolution)
  | some home =>
    let tokenCacheDir := joinPath home ".credentials"
    let w := mkdirAll env w tokenCacheDir
    (w, .ok (joinPath tokenCacheDir (queryEscape tokenFile)))

/-- The cache path `tokenCacheFile` computes for home directory `h` and
logical name `n`. -/
def cachePath (h n : String) : String :=
  joinPath (joinPath h ".credentials") (queryEscape n)

/-- Observable behaviour of `json.NewDecoder(f).Decode(&oauth2.Token{})`
on each content shape: a token JSON object decodes to its record; a
secret-configuration object is valid JSON whose keys are all unknown to
the token struct, so decoding succeeds and leaves the zero token (Go's
decoder ignores unknown fields); content that is not valid JSON fails. -/
def decodeTokenBytes : Bytes → Except GErr Token
  | .tokenJSON t => .ok t
  | .configJSON _ _ _ _ => .ok zeroToken
  | .garbage _ => .error .malformedRecord

/-- Observable behaviour of `json.NewEncoder(f).Encode(token)`: the
written bytes decode back to the same record. -/
def encodeTokenBytes (t : Token) : Bytes :=
  .tokenJSON t

/-- Embeds `tokenFromFile` (identical in both revisions): open the file —
failure (missing file or otherwise unopenable) is returned as the load
error — then JSON-decode it into a token record, returning the decode
error on malformed content. Reads only the filesystem, so it is a
function of `World.fs`. -/
def tokenFromFile (fs : List (String × Bytes)) (file : String) :
    Except GErr Token :=
  match fs.lookup file with
  | none => .error .cacheMiss
  | some b => decodeTokenBytes b

/-- Models `config.AuthCodeURL("state-token", oauth2.AccessTypeOffline)`
of the external oauth2 library: a consent URL built from the auth
endpoint, client id, scope, the offline access type and the fixed state
value. -/
def AuthCodeURL (c : Config) (state : String) : String :=
  c.authURL ++ "?access_type=offline&client_id=" ++ queryEscape c.clientID ++
    "&response_type=code&scope=" ++ queryEscape c.scope ++
    "&state=" ++ queryEscape state

/-- Embeds `getTokenFromWeb` of `client.go`: print the consent URL to
stdout, read one code from stdin (read failure is returned), exchange it
at the token endpoint in a single attempt (failure is returned), and
return the obtained token. -/
def getTokenFromWeb (env : Env) (w : World) (config : Config) :
    World × Except GErr Token :=
  let authURL := AuthCodeURL config "state-token"
  let w := appendEvent w (.printedURL authURL)
  let w := appendEvent w .readCode
  match env.stdin with
  | none => (w, .error .inputError)
  | some code =>
    let w := appendEvent w (.exchanged code)
    match env.exchangeResp code with
    | none => (w, .error .exchangeError)
    | some tok => (w, .ok tok)

/-- Embeds `saveToken` (identical in both revisions): `os.Create` the
cache file and JSON-encode the token into it; a create or write failure
is returned and nothing is recorded. -/
def saveToken (env : Env) (w : World) (file : String) (token : Token) :
    World × Except GErr Unit :=
  if file ∈ env.createFail then (w, .error .persistError)
  else ({ w with fs := (file, encodeTokenBytes token) :: w.fs }, .ok ())

/-- The authenticated HTTP client returned by `config.Client(ctx, tok)`
of the external oauth2 library: a transport wrapping the configuration
and the resolved token record. -/
structure HttpClient where
  config : Config
  token : Token
  deriving Repr, DecidableEq

/-- Models `config.Client(ctx, tok)`. -/
def Config.Client (c : Config) (tok : Token) : HttpClient :=
  { config := c, token := tok }

/-- Embeds `getClient` of `client.go`: resolve the cache path (failure is
fatal); try to load the cached token; on any load failure run the
interactive web flow (failure is fatal) and save the fresh token (save
failure is fatal); wrap the resolved token in an HTTP client. -/
def getClient (env : Env) (w : World) (config : Config)
    (tokenFile : String) : World × Except GErr HttpClient :=
  match tokenCacheFile env w tokenFile with
  | (w, .error e) => (w, .error e)
  | (w, .ok cacheFile) =>
    match tokenFromFile w.fs cacheFile with
    | .ok tok => (w, .ok (config.Client tok))
    | .error _ =>
      match getTokenFromWeb env w config with
      | (w, .error e) => (w, .error e)
      | (w, .ok tok) =>
        match saveToken env w cacheFile tok with
        | (w, .error e) => (w, .error e)
        | (w, .ok _) => (w, .ok (config.Client tok))

/-- Models `ioutil.ReadFile`: the raw bytes at the path, or the read
error when no file is there. -/
def ReadFile (fs : List (String × Bytes)) (file : String) :
    Except GErr Bytes :=
  match fs.lookup file with
  | none => .error .fileReadError
  | some b => .ok b

/-- Models `google.ConfigFromJSON(b, scope)`: a valid secret-configuration
blob yields the config with the requested scope; anything else fails with
the parse error. -/
def ConfigFromJSON (b : Bytes) (scope : String) : Except GErr Config :=
  match b with
  | .configJSON id sec a t =>
    .ok { clientID := id, clientSecret := sec, authURL := a,
          tokenURL := t, scope := scope }
  | _ => .error .configParse

/-- Embeds `CreateClient` of `client.go`: read the secret file, parse the
configuration, then run `getClient`; any step's failure is returned. -/
def CreateClient (env : Env) (w : World) (secretFile tokenFile scope : String) :
    World × Except GErr HttpClient :=
  match ReadFile w.fs secretFile with
  | .error e => (w, .error e)
  | .ok b =>
    match ConfigFromJSON b scope with
    | .error e => (w, .error e)
    | .ok config => getClient env w config tokenFile

namespace BrowserRev

/-- Embeds `getTokenFromWeb` of the browser revision (`part_000`): print
the input prompt, attempt `browser.OpenURL` on the consent URL, and only
when that fails print the consent URL to stdout; then read one code from
stdin (read failure is returned), exchange it in a single attempt
(failure is returned), and return the obtained token. -/
def getTokenFromWeb (env : Env) (w : World) (config : Config) :
    World × Except GErr Token :=
  let authURL := AuthCodeURL config "state-token"
  let w := appendEvent w .printedPrompt
  let w := appendEvent w (.browserLaunch authURL env.browserOk)
  let w := if env.browserOk then w else appendEvent w (.printedURL authURL)
  let w := appendEvent w .readCode
  match env.stdin with
  | none => (w, .error .inputError)
  | some code =>
    let w := appendEvent w (.exchanged code)
    match env.exchangeResp code with
    | none => (w, .error .exchangeError)
    | some tok => (w, .ok tok)

/-- Embeds `getClient` of the browser revision: identical orchestration
to `client.go`'s `getClient`, calling the browser-flow
`getTokenFromWeb`. -/
def getClient (env : Env) (w : World) (config : Config)
    (tokenFile : String) : World × Except GErr HttpClient :=
  match tokenCacheFile env w tokenFile with
  | (w, .error e) => (w, .error e)
  | (w, .ok cacheFile) =>
    match tokenFromFile w.fs cacheFile with
    | .ok tok => (w, .ok (config.Client tok))
    | .error _ =>
      match BrowserRev.getTokenFromWeb env w config with
      | (w, .error e) => (w, .error e)
      | (w, .ok tok) =>
        match saveToken env w cacheFile tok with
        | (w, .error e) => (w, .error e)
        | (w, .ok _) => (w, .ok (config.Client tok))

/-- Embeds `CreateClient` of the browser revision: parse the secret byte
blob into a configuration, then run `getClient`; a parse failure is
returned before anything else runs. -/
def CreateClient (env : Env) (w : World) (secret : Bytes)
    (tokenFile scope : String) : World × Except GErr HttpClient :=
  match ConfigFromJSON secret scope with
  | .error e => (w, .error e)
  | .ok config => BrowserRev.getClient env w config tokenFile

/-- Embeds `CreateClientFromFile` of the browser revision: read the
secret file — a read failure is returned — and delegate to
`CreateClient` on the bytes read. -/
def CreateClientFromFile (env : Env) (w : World)
    (secretFile tokenFile scope : String) : World × Except GErr HttpClient :=
  match ReadFile w.fs secretFile with
  | .error e => (w, .error e)
  | .ok b => BrowserRev.CreateClient env w b tokenFile scope

end BrowserRev

/-- Counts the authorization-code-for-token exchange attempts in a
trace: one invocation of the interactive flow performs exactly one. -/
def countExchanges (es : List Event) : Nat :=
  es.countP fun e => match e with
    | .exchanged _ => true
    | _ => false

theorem mkdirAll_fs (env : Env) (w : World) (d : String) :
    (mkdirAll env w d).fs = w.fs := by
  unfold mkdirAll
  split <;> rfl

theorem mkdirAll_events (env : Env) (w : World) (d : String) :
    (mkdirAll env w d).events = w.events := by
  unfold mkdirAll
  split <;> rfl

theorem tokenCacheFile_some (env : Env) (w : World) (n h : String)
    (hh : env.homeDir = some h) :
    tokenCacheFile env w n =
      (mkdirAll env w (joinPath h ".credentials"), .ok (cachePath h n)) := by
  unfold tokenCacheFile cachePath
  rw [hh]

theorem lookup_insert_self (p : String) (b : Bytes)
    (fs : List (String × Bytes)) : ((p, b) :: fs).lookup p = some b := by
  simp [List.lookup]

theorem getTokenFromWeb_ok (env : Env) (w : World) (cfg : Config)
    (code : String) (tok : Token) (hin : env.stdin = some code)
    (hex : env.exchangeResp code = some tok) :
    getTokenFromWeb env w cfg =
      ({ w with events := w.events ++
          [.printedURL (AuthCodeURL cfg "state-token"), .readCode,
           .exchanged code] }, .ok tok) := by
  simp [getTokenFromWeb, appendEvent, hin, hex]

theorem getTokenFromWeb_exchange_fail (env : Env) (w : World) (cfg : Config)
    (code : String) (hin : env.stdin = some code)
    (hex : env.exchangeResp code = none) :
    getTokenFromWeb env w cfg =
      ({ w with events := w.events ++
          [.printedURL (AuthCodeURL cfg "state-token"), .readCode,
           .exchanged code] }, .error .exchangeError) := by
  simp [getTokenFromWeb, appendEvent, hin, hex]

theorem countExchanges_flow (es : List Event) (url : String) (code : String) :
    countExchanges (es ++ [.printedURL url, .readCode, .exchanged code]) =
      countExchanges es + 1 := by
  simp [countExchanges, List.countP_append, List.countP_cons]

/-- A sample token record, as obtained from a completed exchange. -/
def tokA : Token :=
  { accessToken := "ya29.x", tokenType := "Bearer",
    refreshToken := "1r", expiry := 1700000000 }

/-- A sample parsed configuration. -/
def cfgA : Config :=
  { clientID := "cid", clientSecret := "csec",
    authURL := "https://accounts.example/o/oauth2/auth",
    tokenURL := "https://accounts.example/o/oauth2/token",
    scope := "mail" }

/-- A sample environment: home directory resolves, the operator types
`authcode`, and the token endpoint answers that code with `tokA`. -/
def envA : Env :=
  { homeDir := some "/home/u", mkdirOk := true, browserOk := true,
    stdin := some "authcode",
    exchangeResp := fun c => if c = "authcode" then some tokA else none,
    createFail := [] }

/-- An environment in which the current user cannot be determined. -/
def envNoHome : Env :=
  { envA with homeDir := none }

/-- An empty world: no files, no directories, no events yet. -/
def wEmpty : World :=
  { fs := [], dirs := [], events := [] }

/-- A world whose cache already holds a valid record for name `tok-a`. -/
def wHit : World :=
  { fs := [("/home/u/.credentials/tok-a", .tokenJSON tokA)],
    dirs := ["/home/u/.credentials"], events := [] }

theorem getClient_hit_eq (env : Env) (w : World) (cfg : Config)
    (n h : String) (tok : Token) (hh : env.homeDir = some h)
    (hhit : tokenFromFile w.fs (cachePath h n) = .ok tok) :
    getClient env w cfg n =
      (mkdirAll env w (joinPath h ".credentials"), .ok (cfg.Client tok)) := by
  unfold getClient
  rw [tokenCacheFile_some env w n h hh]
  simp only [mkdirAll_fs, hhit]

/-- C2: when the Credential Store load step succeeds, the assembler adds
no event (no consent URL, no browser launch, no operator input, no
exchange), writes nothing back to the store, and returns a transport
wrapping the stored record as-is. -/
theorem getClient_cache_hit (env : Env) (w : World) (cfg : Config)
    (n h : String) (tok : Token) (hh : env.homeDir = some h)
    (hhit : tokenFromFile w.fs (cachePath h n) = .ok tok) :
    (getClient env w cfg n).2 = .ok (Config.Client cfg tok) ∧
    (getClient env w cfg n).1.fs = w.fs ∧
    (getClient env w cfg n).1.events = w.events := by
  rw [getClient_hit_eq env w cfg n h tok hh hhit]
  exact ⟨rfl, mkdirAll_fs env w _, mkdirAll_events env w _⟩

/-- Witness for C2 at a concrete pre-populated cache. -/
theorem getClient_cache_hit_witness :
    (getClient envA wHit cfgA "tok-a").2 = .ok (Config.Client cfgA tokA) ∧
    (getClient envA wHit cfgA "tok-a").1.fs = wHit.fs ∧
    (getClient envA wHit cfgA "tok-a").1.events = wHit.events :=
  getClient_cache_hit envA wHit cfgA "tok-a" "/home/u" tokA rfl (by decide)

/-- C4: round-trip law — for every token record saved at a path, when
the save succeeds, loading that path yields the original record. -/
theorem save_load_roundtrip (env : Env) (w : World) (p : String) (t : Token)
    (hp : p ∉ env.createFail) :
    (saveToken env w p t).2 = .ok () ∧
    tokenFromFile (saveToken env w p t).1.fs p = .ok t := by
  simp [saveToken, hp, tokenFromFile, lookup_insert_self,
    encodeTokenBytes, decodeTokenBytes]

/-- Witness for C4 at a concrete path and record. -/
theorem save_load_roundtrip_witness :
    (saveToken envA wEmpty "/home/u/.credentials/t" tokA).2 = .ok () ∧
    tokenFromFile (saveToken envA wEmpty "/home/u/.credentials/t" tokA).1.fs
      "/home/u/.credentials/t" = .ok tokA :=
  save_load_roundtrip envA wEmpty "/home/u/.credentials/t" tokA (by decide)

/-- C6: load failures are classified by cause — a path with no file
yields exactly the cache-miss error, and an existing file whose content
is not valid JSON yields the malformed-record error. -/
theorem tokenFromFile_error_kinds (fs : List (String × Bytes)) (p : String) :
    (fs.lookup p = none → tokenFromFile fs p = .error .cacheMiss) ∧
    (∀ s, fs.lookup p = some (.garbage s) →
      tokenFromFile fs p = .error .malformedRecord) := by
  constructor
  · intro h
    simp [tokenFromFile, h]
  · intro s h
    simp [tokenFromFile, h, decodeTokenBytes]

/-- Witness for C6: a missing file and a corrupt file, concretely. -/
theorem tokenFromFile_error_kinds_witness :
    tokenFromFile [] "p" = .error .cacheMiss ∧
    tokenFromFile [("q", .garbage "xx")] "q" = .error .malformedRecord :=
  ⟨(tokenFromFile_error_kinds [] "p").1 rfl,
   (tokenFromFile_error_kinds [("q", .garbage "xx")] "q").2 "xx" rfl⟩

/-- C8: path resolution is deterministic — independent of the world and
of directory-creation success — and with home directory h it returns
exactly h/.credentials/(url-escaped name); it fails, with the
user-resolution error, exactly when the home directory cannot be
determined. -/
theorem tokenCacheFile_resolution (env : Env) (w w' : World) (n : String) :
    (∀ h, env.homeDir = some h →
      ((tokenCacheFile env w n).2 =
        .ok (joinPath (joinPath h ".credentials") (queryEscape n)) ∧
       ∀ b, (tokenCacheFile { env with mkdirOk := b } w' n).2 =
         (tokenCacheFile env w n).2)) ∧
    (env.homeDir = none →
      (tokenCacheFile env w n).2 = .error .userResolution) := by
  constructor
  · intro h hh
    constructor
    · rw [tokenCacheFile_some env w n h hh]
      rfl
    · intro b
      rw [tokenCacheFile_some env w n h hh,
        tokenCacheFile_some { env with mkdirOk := b } w' n h hh]
  · intro hnone
    unfold tokenCacheFile
    rw [hnone]

/-- Witness for C8: concrete resolution with a space in the name, its
independence of directory-creation failure, and the failure case. -/
theorem tokenCacheFile_resolution_witness :
    (tokenCacheFile envA wEmpty "tok a").2 =
      .ok (joinPath (joinPath "/home/u" ".credentials") (queryEscape "tok a")) ∧
    (tokenCacheFile { envA with mkdirOk := false } wEmpty "tok a").2 =
      (tokenCacheFile envA wEmpty "tok a").2 ∧
    (tokenCacheFile envNoHome wEmpty "tok a").2 = .error .userResolution :=
  ⟨((tokenCacheFile_resolution envA wEmpty wEmpty "tok a").1 "/home/u" rfl).1,
   ((tokenCacheFile_resolution envA wEmpty wEmpty "tok a").1 "/home/u" rfl).2
     false,
   (tokenCacheFile_resolution envNoHome wEmpty wEmpty "tok a").2 rfl⟩

/-- C10: a secret blob that does not parse as a valid configuration
makes CreateClient return the parse error with the world unchanged — no
cache directory created, no file read or written, no event, and the
interactive flow never started. -/
theorem CreateClient_parse_fail (env : Env) (w : World) (b : Bytes)
    (n s : String) (e : GErr) (hb : ConfigFromJSON b s = .error e) :
    BrowserRev.CreateClient env w b n s = (w, .error e) := by
  unfold BrowserRev.CreateClient
  rw [hb]

/-- Witness for C10 at a concrete non-configuration blob. -/
theorem CreateClient_parse_fail_witness :
    BrowserRev.CreateClient envA wEmpty (.garbage "nope") "t" "mail" =
      (wEmpty, .error .configParse) :=
  CreateClient_parse_fail envA wEmpty (.garbage "nope") "t" "mail"
    .configParse rfl

theorem getClient_load_fail_eq (env : Env) (w : World) (cfg : Config)
    (n h : String) (e : GErr) (hh : env.homeDir = some h)
    (hmiss : tokenFromFile w.fs (cachePath h n) = .error e) :
    getClient env w cfg n =
      (match getTokenFromWeb env (mkdirAll env w (joinPath h ".credentials"))
          cfg with
       | (w2, .error e2) => (w2, .error e2)
       | (w2, .ok tok) =>
         match saveToken env w2 (cachePath h n) tok with
         | (w3, .error e3) => (w3, .error e3)
         | (w3, .ok _) => (w3, .ok (cfg.Client tok))) := by
  unfold getClient
  rw [tokenCacheFile_some env w n h hh]
  simp only [mkdirAll_fs, hmiss]

/-- C1: cache-miss path — when path resolution succeeds and the load
step fails for any reason, the assembler runs the interactive flow
exactly once; on the flow's success the obtained record is saved at the
resolved cache path before the transport is returned, and a failure of
that save is fatal to the whole invocation. -/
theorem getClient_cache_miss (env : Env) (w : World) (cfg : Config)
    (n h : String) (e : GErr) (code : String) (tok : Token)
    (hh : env.homeDir = some h)
    (hmiss : tokenFromFile w.fs (cachePath h n) = .error e)
    (hin : env.stdin = some code)
    (hex : env.exchangeResp code = some tok) :
    (cachePath h n ∉ env.createFail →
      (getClient env w cfg n).2 = .ok (Config.Client cfg tok) ∧
      (getClient env w cfg n).1.fs.lookup (cachePath h n) =
        some (encodeTokenBytes tok) ∧
      countExchanges (getClient env w cfg n).1.events =
        countExchanges w.events + 1) ∧
    (cachePath h n ∈ env.createFail →
      (getClient env w cfg n).2 = .error .persistError ∧
      countExchanges (getClient env w cfg n).1.events =
        countExchanges w.events + 1) := by
  have hw := getClient_load_fail_eq env w cfg n h e hh hmiss
  rw [getTokenFromWeb_ok env (mkdirAll env w (joinPath h ".credentials")) cfg
    code tok hin hex] at hw
  constructor
  · intro hp
    simp only [saveToken, if_neg hp] at hw
    rw [hw]
    refine ⟨rfl, ?_, ?_⟩
    · exact lookup_insert_self _ _ _
    · simp only [mkdirAll_events, countExchanges_flow]
  · intro hp
    simp only [saveToken, if_pos hp] at hw
    rw [hw]
    refine ⟨rfl, ?_⟩
    simp only [mkdirAll_events, countExchanges_flow]

/-- Witness for C1: a fresh cache name, one interactive exchange, the
record persisted; and with a failing save, the persist error is fatal. -/
theorem getClient_cache_miss_witness :
    ((getClient envA wEmpty cfgA "tok-b").2 = .ok (Config.Client cfgA tokA) ∧
     (getClient envA wEmpty cfgA "tok-b").1.fs.lookup
       (cachePath "/home/u" "tok-b") = some (encodeTokenBytes tokA) ∧
     countExchanges (getClient envA wEmpty cfgA "tok-b").1.events =
       countExchanges wEmpty.events + 1) ∧
    ((getClient { envA with createFail := ["/home/u/.credentials/tok-b"] }
        wEmpty cfgA "tok-b").2 = .error .persistError) :=
  ⟨(getClient_cache_miss envA wEmpty cfgA "tok-b" "/home/u" .cacheMiss
      "authcode" tokA rfl rfl rfl (by decide)).1 (by decide),
   ((getClient_cache_miss { envA with createFail :=
        ["/home/u/.credentials/tok-b"] } wEmpty cfgA "tok-b" "/home/u"
      .cacheMiss "authcode" tokA rfl rfl rfl (by decide)).2 (by decide)).1⟩

/-- C5: when the authorization-code exchange fails, the failure
propagates as the exchange error after exactly one attempt, and no cache
file is written — the filesystem is unchanged. -/
theorem getClient_exchange_fail (env : Env) (w : World) (cfg : Config)
    (n h : String) (e : GErr) (code : String)
    (hh : env.homeDir = some h)
    (hmiss : tokenFromFile w.fs (cachePath h n) = .error e)
    (hin : env.stdin = some code)
    (hex : env.exchangeResp code = none) :
    (getClient env w cfg n).2 = .error .exchangeError ∧
    (getClient env w cfg n).1.fs = w.fs ∧
    countExchanges (getClient env w cfg n).1.events =
      countExchanges w.events + 1 := by
  have hw := getClient_load_fail_eq env w cfg n h e hh hmiss
  rw [getTokenFromWeb_exchange_fail env
    (mkdirAll env w (joinPath h ".credentials")) cfg code hin hex] at hw
  rw [hw]
  refine ⟨rfl, mkdirAll_fs env w _, ?_⟩
  simp only [mkdirAll_events, countExchanges_flow]

/-- Witness for C5: a failing token endpoint, concretely. -/
theorem getClient_exchange_fail_witness :
    (getClient { envA with exchangeResp := fun _ => none } wEmpty cfgA
      "tok-b").2 = .error .exchangeError ∧
    (getClient { envA with exchangeResp := fun _ => none } wEmpty cfgA
      "tok-b").1.fs = wEmpty.fs ∧
    countExchanges (getClient { envA with exchangeResp := fun _ => none }
      wEmpty cfgA "tok-b").1.events = countExchanges wEmpty.events + 1 :=
  getClient_exchange_fail { envA with exchangeResp := fun _ => none }
    wEmpty cfgA "tok-b" "/home/u" .cacheMiss "authcode" rfl rfl rfl rfl

/-- A world whose cache file for name `tok-a` contains a JSON object
setting no token fields (for example `\x7b\x7d`): it decodes successfully
to the zero record, whose access credential is empty. -/
def wEmptyRecord : World :=
  { fs := [("/home/u/.credentials/tok-a", .tokenJSON zeroToken)],
    dirs := ["/home/u/.credentials"], events := [] }

/-- C3 counterexample: a cache file decoding to a record with an empty
access credential IS treated as a cache hit — the assembler returns a
transport wrapping the credential-less record and never starts the
interactive flow, contradicting the claimed invariant. -/
theorem getClient_empty_record_hit :
    zeroToken.accessToken = "" ∧
    (getClient envA wEmptyRecord cfgA "tok-a").2 =
      .ok (Config.Client cfgA zeroToken) ∧
    countExchanges (getClient envA wEmptyRecord cfgA "tok-a").1.events = 0 := by
  decide

/-- C3 amended: the assembler's cache-hit criterion is decode success
alone — a record that decodes successfully is treated as a cache hit
even when its access credential is absent or empty, with no interactive
step performed. -/
theorem getClient_hit_ignores_validity (env : Env) (w : World) (cfg : Config)
    (n h : String) (tok : Token) (hh : env.homeDir = some h)
    (hhit : tokenFromFile w.fs (cachePath h n) = .ok tok)
    (hempty : tok.accessToken = "") :
    (getClient env w cfg n).2 = .ok (Config.Client cfg tok) ∧
    countExchanges (getClient env w cfg n).1.events =
      countExchanges w.events := by
  rw [getClient_hit_eq env w cfg n h tok hh hhit]
  exact ⟨rfl, by rw [mkdirAll_events]⟩

/-- Witness for the amended C3 at the concrete credential-less cache. -/
theorem getClient_hit_ignores_validity_witness :
    (getClient envA wEmptyRecord cfgA "tok-a").2 =
      .ok (Config.Client cfgA zeroToken) ∧
    countExchanges (getClient envA wEmptyRecord cfgA "tok-a").1.events =
      countExchanges wEmptyRecord.events :=
  getClient_hit_ignores_validity envA wEmptyRecord cfgA "tok-a" "/home/u"
    zeroToken rfl (by decide) rfl

/-- C7 counterexample: with a succeeding browser launch the interactive
flow runs to completion without ever printing the consent URL to
stdout — so the URL is not printed on every invocation. -/
theorem getTokenFromWebB_no_url_print :
    envA.browserOk = true ∧
    (BrowserRev.getTokenFromWeb envA wEmpty cfgA).2 = .ok tokA ∧
    (BrowserRev.getTokenFromWeb envA wEmpty cfgA).1.events.filter
      (fun ev => match ev with | .printedURL _ => true | _ => false) = [] := by
  decide

/-- C7 amended: a best-effort browser launch is attempted on every
invocation; the consent URL is printed to stdout when the launch fails;
and a launch failure never aborts the flow — the read of the
authorization code is still attempted. -/
theorem getTokenFromWebB_browser_fail (env : Env) (w : World) (cfg : Config)
    (hb : env.browserOk = false) :
    Event.browserLaunch (AuthCodeURL cfg "state-token") false ∈
      (BrowserRev.getTokenFromWeb env w cfg).1.events ∧
    Event.printedURL (AuthCodeURL cfg "state-token") ∈
      (BrowserRev.getTokenFromWeb env w cfg).1.events ∧
    Event.readCode ∈ (BrowserRev.getTokenFromWeb env w cfg).1.events := by
  rcases hstdin : env.stdin with _ | code
  · simp [BrowserRev.getTokenFromWeb, hb, hstdin, appendEvent]
  · rcases hex : env.exchangeResp code with _ | t
    · simp [BrowserRev.getTokenFromWeb, hb, hstdin, hex, appendEvent]
    · simp [BrowserRev.getTokenFromWeb, hb, hstdin, hex, appendEvent]

/-- Witness for the amended C7 with a concrete failing browser. -/
theorem getTokenFromWebB_browser_fail_witness :
    Event.browserLaunch (AuthCodeURL cfgA "state-token") false ∈
      (BrowserRev.getTokenFromWeb { envA with browserOk := false } wEmpty
        cfgA).1.events ∧
    Event.printedURL (AuthCodeURL cfgA "state-token") ∈
      (BrowserRev.getTokenFromWeb { envA with browserOk := false } wEmpty
        cfgA).1.events ∧
    Event.readCode ∈
      (BrowserRev.getTokenFromWeb { envA with browserOk := false } wEmpty
        cfgA).1.events :=
  getTokenFromWebB_browser_fail { envA with browserOk := false } wEmpty
    cfgA rfl

/-- C9: the file entry point refines the byte entry point — when the
secret file reads successfully, its bytes are handed to CreateClient
unchanged and the two produce identical results; a read failure is
returned without the rest of the flow running. -/
theorem CreateClientFromFile_refines (env : Env) (w : World)
    (p n s : String) :
    (∀ b, w.fs.lookup p = some b →
      BrowserRev.CreateClientFromFile env w p n s =
        BrowserRev.CreateClient env w b n s) ∧
    (w.fs.lookup p = none →
      BrowserRev.CreateClientFromFile env w p n s =
        (w, .error .fileReadError)) := by
  constructor
  · intro b hb
    simp [BrowserRev.CreateClientFromFile, ReadFile, hb]
  · intro hb
    simp [BrowserRev.CreateClientFromFile, ReadFile, hb]

/-- A world holding a valid secret-configuration file. -/
def wSecret : World :=
  { fs := [("/cfg/secret.json",
      .configJSON "cid" "csec" "https://accounts.example/o/oauth2/auth"
        "https://accounts.example/o/oauth2/token")],
    dirs := [], events := [] }

/-- Witness for C9: a readable secret file and a missing one. -/
theorem CreateClientFromFile_refines_witness :
    BrowserRev.CreateClientFromFile envA wSecret "/cfg/secret.json" "t"
      "mail" =
      BrowserRev.CreateClient envA wSecret
        (.configJSON "cid" "csec" "https://accounts.example/o/oauth2/auth"
          "https://accounts.example/o/oauth2/token") "t" "mail" ∧
    BrowserRev.CreateClientFromFile envA wEmpty "/missing" "t" "mail" =
      (wEmpty, .error .fileReadError) :=
  ⟨(CreateClientFromFile_refines envA wSecret "/cfg/secret.json" "t"
      "mail").1 _ rfl,
   (CreateClientFromFile_refines envA wEmpty "/missing" "t" "mail").2 rfl⟩

end Googleauth
